import Mathlib

/-!
Shallow embedding of the huestacean Backend (src/backend/backend.cpp):
the scene data model, the per-tick render pipeline (snapshot copy, sort,
flatten, partition scan, effect execution, provider dispatch), the
Start/Stop lifecycle guards, and Save/Load against the settings store.

Conventions: C++ vectors become Lean lists, iterator cursors become Nat
indices, `float`/`double` scalars become `Rat` (no arithmetic is performed
on them anywhere in the translated code, only storage and retrieval),
the background thread becomes explicit state, and `unordered_map` becomes
an association list (iteration order fixed as list order).
-/

/-- Modelled from the spec: `ProviderType` is "a finite tag set identifying
which backend implementation owns a device"; the enum (declared in a header
that is not part of the sources) is modelled as `Nat`, whose order stands
for the provider-independent ordering of provider types. -/
abbrev ProviderType := Nat

/-- Modelled from the spec: 3-component vector from the math utilities
(location/scale components of a transform). Scalars are `Rat`. -/
structure Vector3d where
  x : Rat
  y : Rat
  z : Rat
deriving DecidableEq, Repr, Inhabited

/-- Modelled from the spec: rotation as pitch/yaw/roll. -/
structure Rotator where
  pitch : Rat
  yaw : Rat
  roll : Rat
deriving DecidableEq, Repr, Inhabited

/-- Modelled from the spec: a spatial transform with "9 scalar transform
fields: location x/y/z, scale x/y/z, rotation pitch/yaw/roll". -/
structure Transform where
  location : Vector3d
  scale : Vector3d
  rotation : Rotator
deriving DecidableEq, Repr, Inhabited

/-- Modelled from the spec: "the spatial extent of one addressable light
element of a device". Its contents are never inspected by the Backend. -/
structure Box where
  center : Vector3d
  halfExtents : Vector3d
deriving DecidableEq, Repr, Inhabited

/-- Modelled from the spec: a color value in HSLuv space. The Backend only
stores and forwards colors; the default value models the
default-constructed color used by `colors.resize`. -/
structure HsluvColor where
  h : Rat
  s : Rat
  l : Rat
deriving DecidableEq, Repr, Inhabited

/-- Modelled from the spec: the Device capability contract
`GetType() -> ProviderType`, `GetUniqueId() -> string`,
`GetLightBoundingBoxes(transform) -> seq<Box>`. -/
structure Device where
  type : ProviderType
  uniqueId : String
  lightBoxes : Transform → List Box

instance : Inhabited Device := ⟨⟨0, "", fun _ => []⟩⟩

/-- `DeviceInScene` pairs a device reference with a spatial transform. -/
structure DeviceInScene where
  device : Device
  transform : Transform

instance : Inhabited DeviceInScene := ⟨⟨default, default⟩⟩

/-- `d.GetLightBoundingBoxes()` queries the device's boxes under the
entry's current transform. -/
def DeviceInScene.GetLightBoundingBoxes (d : DeviceInScene) : List Box :=
  d.device.lightBoxes d.transform

/-- A value held by the settings store (a `QVariant`): the Backend stores
strings (device ids), numbers (transform scalars) and ints (array sizes). -/
inductive Value where
  | str : String → Value
  | num : Rat → Value
  | int : Int → Value
deriving DecidableEq, Repr

/-- A fully qualified settings key: the group/array components followed by
the final key name. -/
abbrev KeyPath := List String

/-- The persisted settings store: an association list from paths to values.
Later writes are prepended and shadow earlier ones. -/
abbrev Store := List (KeyPath × Value)

/-- First-match association-list lookup (used both for the settings store
and for the provider registry). -/
def assocFind {α β : Type} [DecidableEq α] (a : α) : List (α × β) → Option β
  | [] => none
  | (b, v) :: rest => if b = a then some v else assocFind a rest

def Store.empty : Store := []

def Store.get (s : Store) (p : KeyPath) : Option Value :=
  assocFind p s

/-- `QVariant::toDouble`: an absent/invalid value reads as 0. -/
def valToDouble : Option Value → Rat
  | some (Value.num r) => r
  | some (Value.int n) => (n : Rat)
  | _ => 0

/-- `QVariant::toString`: an absent/invalid value reads as the empty string. -/
def valToString : Option Value → String
  | some (Value.str s) => s
  | _ => ""

/-- `QVariant::toInt` clamped to a loop bound (a negative or invalid size
makes the read loops run zero times). -/
def valToSize : Option Value → Nat
  | some (Value.int n) => n.toNat
  | _ => 0

/-- Modelled from the spec: one open array section of the hierarchical
key-value store ("named array sections"). `index1` is the 1-based path
component of the current array index; `sizeSoFar` tracks the size that
`endArray` writes back for a write array. -/
structure ArrayFrame where
  name : String
  index1 : Nat
  sizeSoFar : Nat
  isWrite : Bool
deriving DecidableEq, Repr

/-- Modelled from the spec: the settings-store access object (`QSettings`):
a store plus a stack of open array sections. -/
structure QS where
  store : Store
  stack : List ArrayFrame
deriving DecidableEq, Repr

/-- The key prefix formed by the open array sections, outermost first. -/
def QS.basePath (qs : QS) : KeyPath :=
  qs.stack.reverse.foldl (fun acc f => acc ++ [f.name, toString f.index1]) []

/-- `QSettings::clear`: erases the whole persisted store. -/
def QS.clear (qs : QS) : QS :=
  { qs with store := [] }

/-- `QSettings::setValue`: writes under the current array prefix. -/
def QS.setValue (qs : QS) (k : String) (v : Value) : QS :=
  { qs with store := (qs.basePath ++ [k], v) :: qs.store }

/-- `QSettings::value`: reads under the current array prefix. -/
def QS.value (qs : QS) (k : String) : Option Value :=
  Store.get qs.store (qs.basePath ++ [k])

/-- `QSettings::beginWriteArray`. -/
def QS.beginWriteArray (qs : QS) (n : String) : QS :=
  { qs with stack := ⟨n, 1, 0, true⟩ :: qs.stack }

/-- `QSettings::beginReadArray`: returns the recorded size of the array
(0 when absent). -/
def QS.beginReadArray (qs : QS) (n : String) : QS × Nat :=
  let sz := valToSize (Store.get qs.store (qs.basePath ++ [n, "size"]))
  ({ qs with stack := ⟨n, 1, 0, false⟩ :: qs.stack }, sz)

/-- `QSettings::setArrayIndex i`: keys are stored under the 1-based
component `i+1`; a write array grows its recorded size accordingly. -/
def QS.setArrayIndex (qs : QS) (i : Nat) : QS :=
  match qs.stack with
  | [] => qs
  | f :: rest =>
    { qs with stack := { f with index1 := i + 1, sizeSoFar := max f.sizeSoFar (i + 1) } :: rest }

/-- `QSettings::endArray`: closes the innermost array section; a write
array records its size under `<name>/size`. -/
def QS.endArray (qs : QS) : QS :=
  match qs.stack with
  | [] => qs
  | f :: rest =>
    if f.isWrite then
      { store := ((QS.basePath { qs with stack := rest }) ++ [f.name, "size"], Value.int f.sizeSoFar) :: qs.store,
        stack := rest }
    else { qs with stack := rest }

/-- Modelled from the spec: effects are stateful units with
`Tick(deltaTime)` (advance internal animation state) and
`Update(boundingBoxes, colors)` (write colors); their internals are
external to the Backend, so the internal state is an opaque `Nat` threaded
through the two operations, and `Save` writes an effect-specific list of
key/value pairs under the current settings prefix. -/
structure Effect where
  state : Nat
  tickF : Nat → Rat → Nat
  updateF : Nat → List Box → List HsluvColor → List HsluvColor
  saveData : List (String × Value)

instance : Inhabited Effect := ⟨⟨0, fun s _ => s, fun _ _ cs => cs, []⟩⟩

/-- `effect->Tick(deltaTime)`. -/
def Effect.Tick (e : Effect) (dt : Rat) : Effect :=
  { e with state := e.tickF e.state dt }

/-- `effect->Update(boundingBoxes, colors)`. -/
def Effect.Update (e : Effect) (boxes : List Box) (colors : List HsluvColor) : List HsluvColor :=
  e.updateF e.state boxes colors

/-- Modelled from the spec: `Effect::StaticLoad(store) -> Effect`; effect
internals are external, so loading produces an opaque default effect. -/
def Effect.StaticLoad (_qs : QS) : Effect := default

/-- A scene: an ordered list of placed devices plus an ordered list of
effects. -/
structure Scene where
  devices : List DeviceInScene
  effects : List Effect

/-- `Scene()`: the default-constructed empty scene. -/
def Scene.empty : Scene := ⟨[], []⟩

instance : Inhabited Scene := ⟨Scene.empty⟩

/-- Modelled from the spec: the provider capability contract used by the
Backend — a per-type comparator for same-type device pairs,
`GetDeviceFromUniqueId`, and `Save(store)` writing provider-specific
key/value pairs at the store root. `Start`/`Stop`/`Update` have no effect
on Backend state and are observed through the scheduler's outputs. -/
structure DeviceProvider where
  compare : DeviceInScene → DeviceInScene → Bool
  GetDeviceFromUniqueId : String → Option Device
  saveData : List (String × Value)

/-- Reads the leading decimal digits of a character list as a number
(stopping at the first non-digit). -/
def leadingDigitsVal : List Char → Nat → Nat
  | [], acc => acc
  | c :: cs, acc => if c.isDigit then leadingDigitsVal cs (acc * 10 + (c.toNat - 48)) else acc

/-- Modelled from the spec: the id-to-provider-type decoding
(`Device::GetProviderTypeFromUniqueId`) used during load; unique ids embed
their provider type as a leading decimal tag. -/
def Device.GetProviderTypeFromUniqueId (id : String) : ProviderType :=
  leadingDigitsVal id.data 0

/-- Modelled from the spec: `LightUpdateParams` is a view — paired
begin/end cursors into the shared bounding-box, color and device arrays
plus three dirty flags. Cursors are indices; the default value models the
value-initialized entry that `unordered_map::operator[]` creates. -/
structure LightUpdateParams where
  colorsBegin : Nat := 0
  colorsEnd : Nat := 0
  devicesBegin : Nat := 0
  devicesEnd : Nat := 0
  boundingBoxesBegin : Nat := 0
  boundingBoxesEnd : Nat := 0
  boundingBoxesDirty : Bool := false
  colorsDirty : Bool := false
  devicesDirty : Bool := false
deriving DecidableEq, Repr, Inhabited

/-- The Backend state: canonical scene list, active index, dirty flag,
provider registry, and the scheduling-thread flags (`stopRequested`, and
`running` standing for `thread.joinable()`). -/
structure Backend where
  stopRequested : Bool
  running : Bool
  scenes : List Scene
  activeSceneIndex : Int
  scenesAreDirty : Bool
  deviceProviders : List (ProviderType × DeviceProvider)

/-- `Backend::IsRunning`: true iff the scheduling thread is joinable. -/
def Backend.IsRunning (b : Backend) : Bool := b.running

/-- `Backend::Start` (lines 33-165): no-op if already running; otherwise
starts every registered provider (returned as the observation list) and
spawns the scheduling thread. -/
def Backend.Start (b : Backend) : Backend × List ProviderType :=
  if b.IsRunning then (b, [])
  else ({ b with stopRequested := false, running := true },
        b.deviceProviders.map Prod.fst)

/-- `Backend::Stop` (lines 172-185): no-op if not running; otherwise
requests a stop, joins the thread, then stops every provider (returned as
the observation list). -/
def Backend.Stop (b : Backend) : Backend × List ProviderType :=
  if !b.IsRunning then (b, [])
  else ({ b with stopRequested := true, running := false },
        b.deviceProviders.map Prod.fst)

/-- `Backend::Save` (lines 203-253): clears the persisted store, lets every
provider save, then writes the scene array (per scene: an effects array
and a devices array with the id and the 9 transform scalars). The source
writes the key "t.y" twice per device: once for `location.y` and once for
`rotation.yaw`. -/
def Backend.Save (b : Backend) (s : Store) : Store :=
  let qs : QS := ⟨s, []⟩
  let qs := qs.clear
  let qs := b.deviceProviders.foldl
    (fun q dp => dp.2.saveData.foldl (fun q2 kv => q2.setValue kv.1 kv.2) q) qs
  let qs := qs.beginWriteArray "scenes"
  let qsi := b.scenes.foldl (fun (qi : QS × Nat) scene =>
    let q := qi.1.setArrayIndex qi.2
    let q := q.beginWriteArray "effects"
    let qj := scene.effects.foldl (fun (qj : QS × Nat) e =>
      let q2 := qj.1.setArrayIndex qj.2
      let q2 := e.saveData.foldl (fun q3 kv => q3.setValue kv.1 kv.2) q2
      (q2, qj.2 + 1)) (q, 0)
    let q := qj.1.endArray
    let q := q.beginWriteArray "devices"
    let qj := scene.devices.foldl (fun (qj : QS × Nat) dev =>
      let q2 := qj.1.setArrayIndex qj.2
      let q2 := q2.setValue "id" (Value.str dev.device.uniqueId)
      let q2 := q2.setValue "t.x" (Value.num dev.transform.location.x)
      let q2 := q2.setValue "t.y" (Value.num dev.transform.location.y)
      let q2 := q2.setValue "t.z" (Value.num dev.transform.location.z)
      let q2 := q2.setValue "t.sx" (Value.num dev.transform.scale.x)
      let q2 := q2.setValue "t.sy" (Value.num dev.transform.scale.y)
      let q2 := q2.setValue "t.sz" (Value.num dev.transform.scale.z)
      let q2 := q2.setValue "t.p" (Value.num dev.transform.rotation.pitch)
      let q2 := q2.setValue "t.y" (Value.num dev.transform.rotation.yaw)
      let q2 := q2.setValue "t.r" (Value.num dev.transform.rotation.roll)
      (q2, qj.2 + 1)) (q, 0)
    let q := qj.1.endArray
    (q, qi.2 + 1)) (qs, 0)
  let qs := qsi.1.endArray
  qs.store

/-- The devices read loop of `Backend::Load` (lines 280-311). The source
increments the loop counter twice per iteration: once inside
`settings.setArrayIndex(j++)` and once in the `for` header (`++j`), so
the translated loop steps by `j + 1 + 1`. An entry whose provider is
unregistered, or whose id the provider cannot resolve, is skipped with
`continue`. The loop is written with explicit fuel (structural recursion
so that the kernel can evaluate it); one unit of fuel covers one
loop-condition check, and the counter strictly increases towards `n`, so
`n` units are always enough — the fuel never runs out before the loop
condition fails. -/
def loadDevicesAux (ps : List (ProviderType × DeviceProvider)) (n : Nat) :
    Nat → QS → List DeviceInScene → Nat → QS × List DeviceInScene
  | 0, qs, acc, _ => (qs, acc)
  | fuel + 1, qs, acc, j =>
    if j < n then
      let qs := qs.setArrayIndex j
      let id := valToString (qs.value "id")
      let providerType := Device.GetProviderTypeFromUniqueId id
      match assocFind providerType ps with
      | none => loadDevicesAux ps n fuel qs acc (j + 1 + 1)
      | some dp =>
        match dp.GetDeviceFromUniqueId id with
        | none => loadDevicesAux ps n fuel qs acc (j + 1 + 1)
        | some d =>
          let dis : DeviceInScene :=
            { device := d,
              transform :=
                { location := ⟨valToDouble (qs.value "t.x"), valToDouble (qs.value "t.y"),
                               valToDouble (qs.value "t.z")⟩,
                  scale := ⟨valToDouble (qs.value "t.sx"), valToDouble (qs.value "t.sy"),
                            valToDouble (qs.value "t.sz")⟩,
                  rotation := ⟨valToDouble (qs.value "t.p"), valToDouble (qs.value "t.y"),
                               valToDouble (qs.value "t.r")⟩ } }
          loadDevicesAux ps n fuel qs (acc ++ [dis]) (j + 1 + 1)
    else (qs, acc)

def loadDevicesLoop (ps : List (ProviderType × DeviceProvider)) (n : Nat)
    (qs : QS) (acc : List DeviceInScene) (j : Nat) : QS × List DeviceInScene :=
  loadDevicesAux ps n n qs acc j

/-- The effects read loop of `Backend::Load` (lines 272-278); it has the
same double increment (`setArrayIndex(j++)` inside a `++j` loop), and
fuel as in `loadDevicesAux`. -/
def loadEffectsAux (n : Nat) : Nat → QS → List Effect → Nat → QS × List Effect
  | 0, qs, acc, _ => (qs, acc)
  | fuel + 1, qs, acc, j =>
    if j < n then
      let qs := qs.setArrayIndex j
      loadEffectsAux n fuel qs (acc ++ [Effect.StaticLoad qs]) (j + 1 + 1)
    else (qs, acc)

def loadEffectsLoop (n : Nat) (qs : QS) (acc : List Effect) (j : Nat) :
    QS × List Effect :=
  loadEffectsAux n n qs acc j

/-- The scenes read loop of `Backend::Load` (lines 266-313); the outer
loop increments normally, and fuel as in `loadDevicesAux`. -/
def loadScenesAux (ps : List (ProviderType × DeviceProvider)) (n : Nat) :
    Nat → QS → List Scene → Nat → QS × List Scene
  | 0, qs, acc, _ => (qs, acc)
  | fuel + 1, qs, acc, i =>
    if i < n then
      let qs := qs.setArrayIndex i
      let qe := qs.beginReadArray "effects"
      let qeff := loadEffectsLoop qe.2 qe.1 [] 0
      let qs := qeff.1.endArray
      let qd := qs.beginReadArray "devices"
      let qdev := loadDevicesLoop ps qd.2 qd.1 [] 0
      let qs := qdev.1.endArray
      loadScenesAux ps n fuel qs (acc ++ [⟨qdev.2, qeff.2⟩]) (i + 1)
    else (qs, acc)

def loadScenesLoop (ps : List (ProviderType × DeviceProvider)) (n : Nat)
    (qs : QS) (acc : List Scene) (i : Nat) : QS × List Scene :=
  loadScenesAux ps n n qs acc i

/-- `Backend::Load` (lines 255-315): providers load first (no effect on the
Backend state), then every persisted scene is appended to the canonical
scene list via the read loops above. -/
def Backend.Load (b : Backend) (s : Store) : Backend :=
  let qs : QS := ⟨s, []⟩
  let qsc := qs.beginReadArray "scenes"
  let res := loadScenesLoop b.deviceProviders qsc.2 qsc.1 [] 0
  let _qs := res.1.endArray
  { b with scenes := b.scenes ++ res.2 }

/-- The cross-type device comparator: the free `compare(a.device, b.device)`
used by the sort for devices of different provider types. Modelled from the
spec: "a provider-independent comparator across different types" whose
"primary key is provider type ordering". -/
def deviceCompare (a b : Device) : Bool :=
  decide (a.type < b.type)

/-- The sort comparator of the tick lambda (lines 69-79): same-type pairs
go through the owning provider's comparator, different types through the
provider-independent device comparator. When the provider of a same-type
pair is not registered the source dereferences a null `unique_ptr`
(undefined behaviour); the model returns `false` there — no claim touches
that case. -/
def sceneComparator (ps : List (ProviderType × DeviceProvider))
    (a b : DeviceInScene) : Bool :=
  if a.device.type = b.device.type then
    match assocFind a.device.type ps with
    | some p => p.compare a b
    | none => false
  else deviceCompare a.device b.device

/-- The postcondition guaranteed by `std::sort` (lines 69-79): the output
is a permutation of the input in which no adjacent pair is strictly out of
order under the comparator. `std::sort` promises nothing beyond this — in
particular not stability — so the tick is parametrised over any sort
function, and theorems about sorted output assume exactly this
postcondition. -/
def SortSpec {α : Type} (cmp : α → α → Bool) (input out : List α) : Prop :=
  input.Perm out ∧ List.Chain' (fun x y => cmp y x = false) out

/-- A concrete comparison sort used to instantiate the unspecified
`std::sort` in concrete executions: insert an element in front of the
first entry it compares less-than. -/
def insertBy {α : Type} (lt : α → α → Bool) (a : α) : List α → List α
  | [] => [a]
  | b :: bs => if lt a b then a :: b :: bs else b :: insertBy lt a bs

/-- Insertion sort over an arbitrary boolean comparator. -/
def insertionSortBy {α : Type} (lt : α → α → Bool) : List α → List α
  | [] => []
  | a :: as => insertBy lt a (insertionSortBy lt as)

/-- The flatten loop (lines 86-93): for every device-in-scene, append its
bounding boxes and one copy of the device per box to the parallel arrays. -/
def flatten : List DeviceInScene → List Box × List Device
  | [] => ([], [])
  | d :: ds =>
    (d.GetLightBoundingBoxes ++ (flatten ds).1,
     List.replicate d.GetLightBoundingBoxes.length d.device ++ (flatten ds).2)

/-- `colors.resize(n)` (line 97): keep the first `n` entries, pad with
default-constructed colors. -/
def listResize {α : Type} [Inhabited α] (l : List α) (n : Nat) : List α :=
  l.take n ++ List.replicate (n - l.length) default

/-- The first scan loop of the partition computation (lines 110-115):
advance the cursor while it points at a device of a different type.
Written with explicit fuel (structural recursion, kernel-evaluable); the
cursor strictly increases and stops at `devs.length`, so
`devs.length - i` units of fuel always suffice. -/
def advanceWhileNotAux (devs : List Device) (p : ProviderType) :
    Nat → Nat → Nat
  | 0, i => i
  | fuel + 1, i =>
    if h : i < devs.length then
      if (devs.get ⟨i, h⟩).type ≠ p then advanceWhileNotAux devs p fuel (i + 1)
      else i
    else i

def advanceWhileNot (devs : List Device) (p : ProviderType) (i : Nat) : Nat :=
  advanceWhileNotAux devs p (devs.length - i) i

/-- The second scan loop of the partition computation (lines 121-126):
advance the end cursor while it points at a device of the given type. -/
def advanceWhileEqAux (devs : List Device) (p : ProviderType) :
    Nat → Nat → Nat
  | 0, i => i
  | fuel + 1, i =>
    if h : i < devs.length then
      if (devs.get ⟨i, h⟩).type = p then advanceWhileEqAux devs p fuel (i + 1)
      else i
    else i

def advanceWhileEq (devs : List Device) (p : ProviderType) (i : Nat) : Nat :=
  advanceWhileEqAux devs p (devs.length - i) i

/-- The partition computed by the scan body (lines 101-126) for one
provider: all three cursor pairs advance in lockstep, so they share the
same begin and end indices, and all three dirty flags are set. -/
def computePartition (devs : List Device) (p : ProviderType) : LightUpdateParams :=
  let b := advanceWhileNot devs p 0
  let e := advanceWhileEq devs p b
  { colorsBegin := b, colorsEnd := e,
    devicesBegin := b, devicesEnd := e,
    boundingBoxesBegin := b, boundingBoxesEnd := e,
    boundingBoxesDirty := true, colorsDirty := true, devicesDirty := true }

/-- `lightUpdates[dp.first]` — `unordered_map::operator[]`: return the
existing entry, or insert (and return) a value-initialized one. -/
def mapIndex (m : List (ProviderType × LightUpdateParams)) (p : ProviderType) :
    List (ProviderType × LightUpdateParams) × LightUpdateParams :=
  match assocFind p m with
  | some u => (m, u)
  | none => (m ++ [(p, default)], default)

/-- The per-provider loop of the dirty branch (lines 99-127). The source
reads the map entry into a **by-value** local (`auto update =
lightUpdates[dp.first];`), fills that local with the computed partition,
and never stores it back, so the only lasting effect of the loop is the
default entry that `operator[]` inserts; the computed partition is
discarded. -/
def vivifyAll (m : List (ProviderType × LightUpdateParams))
    (devs : List Device) :
    List (ProviderType × DeviceProvider) → List (ProviderType × LightUpdateParams)
  | [] => m
  | (pt, _) :: rest =>
    let mi := mapIndex m pt
    let _update := computePartition devs pt
    vivifyAll mi.1 devs rest

/-- The dispatch loop (lines 138-141): every registered provider receives
`lightUpdates[dp.first]` (again through `operator[]`, which may insert a
default entry). Returns the updated map and the dispatched
provider/params pairs in registry order. -/
def dispatchAll (m : List (ProviderType × LightUpdateParams)) :
    List (ProviderType × DeviceProvider) →
    List (ProviderType × LightUpdateParams) × List (ProviderType × LightUpdateParams)
  | [] => (m, [])
  | (pt, _) :: rest =>
    let mi := mapIndex m pt
    let rec' := dispatchAll mi.1 rest
    (rec'.1, (pt, mi.2) :: rec'.2)

/-- The effects loop (lines 131-135): each effect ticks, then writes into
the shared color buffer; the mutated effects stay in the render scene. -/
def runEffects (dt : Rat) : List Effect → List Box → List HsluvColor →
    List Effect × List HsluvColor
  | [], _, cs => ([], cs)
  | e :: es, boxes, cs =>
    let e2 := e.Tick dt
    let cs2 := e2.Update boxes cs
    let rest := runEffects dt es boxes cs2
    (e2 :: rest.1, rest.2)

/-- The conversion applied when the C++ `int` scene index meets
`scenes.size()` (a `size_t`): reduction modulo 2^64. -/
def intToSizeT (i : Int) : Nat :=
  (i % (2 ^ 64 : Int)).toNat

/-- The active-scene snapshot expression (lines 49 and 65):
`scenes.size() > activeSceneIndex ? scenes[activeSceneIndex] : Scene()`.
The `int` index is converted to `size_t` by the comparison, so a negative
index fails the bound check and yields the empty scene. -/
def activeSceneOrEmpty (b : Backend) : Scene :=
  if intToSizeT b.activeSceneIndex < b.scenes.length then
    b.scenes.getD (intToSizeT b.activeSceneIndex) Scene.empty
  else Scene.empty

/-- The render-thread state captured by the tick lambda (lines 49-54). -/
structure RenderState where
  renderScene : Scene
  lightUpdates : List (ProviderType × LightUpdateParams)
  colors : List HsluvColor
  boundingBoxes : List Box
  devices : List Device

/-- The state of the render thread right after it starts (lines 49-54):
the initial snapshot plus empty buffers. -/
def initRenderState (b : Backend) : RenderState :=
  { renderScene := activeSceneOrEmpty b, lightUpdates := [],
    colors := [], boundingBoxes := [], devices := [] }

/-- The result of the dirty branch of a tick (lines 60-128): when
`scenesAreDirty` is set, re-snapshot the active scene, sort its devices,
flatten, resize the colors, and run the per-provider partition loop
(whose computed partitions are discarded, see `vivifyAll`); otherwise
everything is carried over unchanged. -/
structure TickMid where
  scene : Scene
  boundingBoxes : List Box
  devices : List Device
  colors : List HsluvColor
  lightUpdates : List (ProviderType × LightUpdateParams)

def tickFlatten (b : Backend)
    (sortFn : (DeviceInScene → DeviceInScene → Bool) →
      List DeviceInScene → List DeviceInScene)
    (st : RenderState) : TickMid :=
  if b.scenesAreDirty then
    let snap := activeSceneOrEmpty b
    let sorted := sortFn (sceneComparator b.deviceProviders) snap.devices
    let fl := flatten sorted
    { scene := ⟨sorted, snap.effects⟩,
      boundingBoxes := fl.1,
      devices := fl.2,
      colors := listResize st.colors fl.1.length,
      lightUpdates := vivifyAll st.lightUpdates fl.2 b.deviceProviders }
  else
    { scene := st.renderScene, boundingBoxes := st.boundingBoxes,
      devices := st.devices, colors := st.colors,
      lightUpdates := st.lightUpdates }

/-- The observations of one tick: the params dispatched to each provider
in registry order, and whether the dirty branch ran (re-snapshot, re-sort,
re-flatten, partition loop). -/
structure TickObs where
  dispatched : List (ProviderType × LightUpdateParams)
  recomputed : Bool

/-- One tick of the scheduler (lines 56-144): dirty branch, effects,
provider dispatch. `sortFn` stands for the unspecified `std::sort`. -/
def tick (b : Backend)
    (sortFn : (DeviceInScene → DeviceInScene → Bool) →
      List DeviceInScene → List DeviceInScene)
    (dt : Rat) (st : RenderState) : RenderState × TickObs :=
  let mid := tickFlatten b sortFn st
  let ec := runEffects dt mid.scene.effects mid.boundingBoxes mid.colors
  let du := dispatchAll mid.lightUpdates b.deviceProviders
  ({ renderScene := ⟨mid.scene.devices, ec.1⟩,
     boundingBoxes := mid.boundingBoxes,
     devices := mid.devices,
     colors := ec.2,
     lightUpdates := du.1 },
   { dispatched := du.2, recomputed := b.scenesAreDirty })

/-- All entries of a light-update map are value-initialized. -/
def allDefault (m : List (ProviderType × LightUpdateParams)) : Prop :=
  ∀ q u, (q, u) ∈ m → u = default

/-- The order on device-in-scene entries induced by provider type. -/
def typeLe (a b : DeviceInScene) : Prop :=
  a.device.type ≤ b.device.type

/-!
Concrete fixtures used by the evaluation theorems and witnesses: small
scenes, devices, providers and stores on which the embedded operations are
executed.
-/

/-- A provider whose same-type comparator reports every pair as
equal-ordered and which resolves no id. -/
def provTrivial : DeviceProvider := ⟨fun _ _ => false, fun _ => none, []⟩

/-- An effect that sets every color to the fixed value `c`. -/
def constEffect (c : HsluvColor) : Effect :=
  ⟨0, fun s _ => s, fun _ _ cs => cs.map (fun _ => c), []⟩

def colorFix : HsluvColor := ⟨5, 6, 7⟩

/-- Provider-0 device contributing one bounding box. -/
def devA : Device := ⟨0, "0:a", fun _ => [default]⟩

/-- Provider-1 device contributing two bounding boxes. -/
def devB : Device := ⟨1, "1:b", fun _ => [default, default]⟩

/-- Scene with the two devices above and one constant-color effect. -/
def sceneTwoDevices : Scene :=
  ⟨[⟨devA, default⟩, ⟨devB, default⟩], [constEffect colorFix]⟩

/-- Backend rendering `sceneTwoDevices`, marked dirty, with providers 0
and 1 registered. -/
def backendTwoDevices : Backend :=
  ⟨false, false, [sceneTwoDevices], 0, true, [(0, provTrivial), (1, provTrivial)]⟩

/-- Like `backendTwoDevices` but with an extra registered provider (type 5)
that owns none of the scene's devices. -/
def backendThreeProviders : Backend :=
  ⟨false, false, [sceneTwoDevices], 0, true,
   [(0, provTrivial), (1, provTrivial), (5, provTrivial)]⟩

/-- Two resolvable devices of provider type 1. -/
def devP1a : Device := ⟨1, "1:a", fun _ => [default]⟩

def devP1b : Device := ⟨1, "1:b", fun _ => [default]⟩

/-- A provider that resolves exactly the two ids above. -/
def provResolve : DeviceProvider :=
  ⟨fun _ _ => false,
   fun s => if s = "1:a" then some devP1a else if s = "1:b" then some devP1b else none,
   []⟩

/-- A transform whose `location.y` (1) differs from its `rotation.yaw` (2). -/
def tA : Transform := ⟨⟨0, 1, 0⟩, ⟨1, 1, 1⟩, ⟨0, 2, 0⟩⟩

def tB : Transform := ⟨⟨3, 4, 5⟩, ⟨6, 7, 8⟩, ⟨9, 10, 11⟩⟩

/-- A scene with two fully resolvable devices. -/
def sceneSaveLoad : Scene := ⟨[⟨devP1a, tA⟩, ⟨devP1b, tB⟩], []⟩

def backendSaveLoad : Backend :=
  ⟨false, false, [sceneSaveLoad], 0, false, [(1, provResolve)]⟩

/-- The same backend with an empty canonical scene list, used as the load
target. -/
def backendLoadTarget : Backend :=
  ⟨false, false, [], 0, false, [(1, provResolve)]⟩

def devBulb : Device := ⟨1, "1:bulb", fun _ => [default]⟩

def provBulb : DeviceProvider :=
  ⟨fun _ _ => false, fun s => if s = "1:bulb" then some devBulb else none, []⟩

/-- A persisted scene with two device entries: entry 0 has an id of an
unregistered provider (type 9), entry 1 resolves through provider 1. -/
def storeSkip : Store :=
  [(["scenes", "size"], Value.int 1),
   (["scenes", "1", "devices", "size"], Value.int 2),
   (["scenes", "1", "devices", "1", "id"], Value.str "9:ghost"),
   (["scenes", "1", "devices", "2", "id"], Value.str "1:bulb"),
   (["scenes", "1", "devices", "2", "t.x"], Value.num 1)]

def backendSkip : Backend := ⟨false, false, [], 0, false, [(1, provBulb)]⟩

/-- A backend with no providers and no scenes. -/
def backendBare : Backend := ⟨false, false, [], 0, false, []⟩

def backendRunning : Backend := ⟨false, true, [], 0, false, [(0, provTrivial)]⟩

def backendStopped : Backend := ⟨false, false, [], 0, false, [(0, provTrivial)]⟩

/-- A backend whose active scene index is negative. -/
def backendNegIndex : Backend :=
  ⟨false, false, [sceneTwoDevices], -3, true, [(0, provTrivial)]⟩

/-- Two distinct same-type devices that the trivial provider comparator
reports as equal-ordered. -/
def disS1 : DeviceInScene := ⟨⟨0, "s1", fun _ => []⟩, default⟩

def disS2 : DeviceInScene := ⟨⟨0, "s2", fun _ => []⟩, default⟩

def disS3 : DeviceInScene := ⟨⟨0, "s3", fun _ => []⟩, default⟩

def psOne : List (ProviderType × DeviceProvider) := [(0, provTrivial)]

/-! Helper lemmas about the embedded operations. -/

theorem flatten_length_eq (l : List DeviceInScene) :
    (flatten l).1.length = (flatten l).2.length := by
  induction l with
  | nil => rfl
  | cons d ds ih => simp [flatten, ih]

theorem listResize_length {α : Type} [Inhabited α] (l : List α) (n : Nat) :
    (listResize l n).length = n := by
  simp [listResize]
  omega

theorem advanceWhileEqAux_mem (devs : List Device) (p : ProviderType) :
    ∀ (fuel i k : Nat), i ≤ k → k < advanceWhileEqAux devs p fuel i →
      (devs.getD k default).type = p := by
  intro fuel
  induction fuel with
  | zero =>
    intro i k hik hk
    simp [advanceWhileEqAux] at hk
    omega
  | succ fuel ih =>
    intro i k hik hk
    by_cases hi : i < devs.length
    · by_cases ht : (devs.get ⟨i, hi⟩).type = p
      · simp only [advanceWhileEqAux, dif_pos hi, if_pos ht] at hk
        rcases Nat.eq_or_lt_of_le hik with heq | hlt
        · rw [← heq, List.getD_eq_getElem _ _ hi]
          simpa using ht
        · exact ih (i + 1) k hlt hk
      · simp only [advanceWhileEqAux, dif_pos hi, if_neg ht] at hk
        omega
    · simp only [advanceWhileEqAux, dif_neg hi] at hk
      omega

theorem advanceWhileEq_mem (devs : List Device) (p : ProviderType) (i k : Nat)
    (h1 : i ≤ k) (h2 : k < advanceWhileEq devs p i) :
    (devs.getD k default).type = p :=
  advanceWhileEqAux_mem devs p (devs.length - i) i k h1 h2

theorem computePartition_mem (devs : List Device) (p : ProviderType) (i : Nat)
    (h1 : (computePartition devs p).devicesBegin ≤ i)
    (h2 : i < (computePartition devs p).devicesEnd) :
    (devs.getD i default).type = p := by
  exact advanceWhileEq_mem devs p (advanceWhileNot devs p 0) i h1 h2

theorem advanceWhileNotAux_all (devs : List Device) (p : ProviderType)
    (hall : ∀ d ∈ devs, d.type ≠ p) :
    ∀ (fuel i : Nat), devs.length - i ≤ fuel → i ≤ devs.length →
      advanceWhileNotAux devs p fuel i = devs.length := by
  intro fuel
  induction fuel with
  | zero =>
    intro i hfi hi
    have : i = devs.length := by omega
    simp [advanceWhileNotAux, this]
  | succ fuel ih =>
    intro i hfi hi
    by_cases hlt : i < devs.length
    · have hne : (devs.get ⟨i, hlt⟩).type ≠ p := hall _ (devs.get_mem i hlt)
      simp only [advanceWhileNotAux, dif_pos hlt, if_pos hne]
      exact ih (i + 1) (by omega) (by omega)
    · have : i = devs.length := by omega
      simp [advanceWhileNotAux, hlt]
      exact this

theorem advanceWhileNot_all (devs : List Device) (p : ProviderType)
    (hall : ∀ d ∈ devs, d.type ≠ p) :
    advanceWhileNot devs p 0 = devs.length :=
  advanceWhileNotAux_all devs p hall devs.length 0 (by omega) (by omega)

theorem advanceWhileEq_at_length (devs : List Device) (p : ProviderType) :
    advanceWhileEq devs p devs.length = devs.length := by
  simp [advanceWhileEq, Nat.sub_self, advanceWhileEqAux]

theorem computePartition_empty (devs : List Device) (p : ProviderType)
    (hall : ∀ d ∈ devs, d.type ≠ p) :
    (computePartition devs p).colorsBegin = (computePartition devs p).colorsEnd
    ∧ (computePartition devs p).devicesBegin = (computePartition devs p).devicesEnd
    ∧ (computePartition devs p).boundingBoxesBegin
        = (computePartition devs p).boundingBoxesEnd := by
  have hb := advanceWhileNot_all devs p hall
  simp only [computePartition, hb, advanceWhileEq_at_length]
  exact ⟨trivial, trivial, trivial⟩

theorem assocFind_mem {α β : Type} [DecidableEq α] (a : α) (v : β) :
    ∀ (l : List (α × β)), assocFind a l = some v → (a, v) ∈ l := by
  intro l
  induction l with
  | nil => intro h; simp [assocFind] at h
  | cons hd tl ih =>
    intro h
    by_cases hba : hd.1 = a
    · rw [show hd = (hd.1, hd.2) from rfl] at h
      simp [assocFind, hba] at h
      rw [← hba, ← h]
      exact List.mem_cons_self _ _
    · rw [show hd = (hd.1, hd.2) from rfl] at h
      simp [assocFind, hba] at h
      exact List.mem_cons_of_mem _ (ih h)

theorem mapIndex_allDefault (m : List (ProviderType × LightUpdateParams))
    (p : ProviderType) (h : allDefault m) :
    allDefault (mapIndex m p).1 ∧ (mapIndex m p).2 = default := by
  unfold mapIndex
  cases hf : assocFind p m with
  | some u =>
    exact ⟨h, h p u (assocFind_mem p u m hf)⟩
  | none =>
    constructor
    · intro q u hu
      rcases List.mem_append.mp hu with hm | hm
      · exact h q u hm
      · simp at hm
        exact hm.2
    · rfl

theorem vivifyAll_allDefault (devs : List Device) :
    ∀ (ps : List (ProviderType × DeviceProvider))
      (m : List (ProviderType × LightUpdateParams)), allDefault m →
      allDefault (vivifyAll m devs ps) := by
  intro ps
  induction ps with
  | nil => intro m h; exact h
  | cons hd tl ih =>
    intro m h
    rw [show hd = (hd.1, hd.2) from rfl]
    simp only [vivifyAll]
    exact ih _ (mapIndex_allDefault m hd.1 h).1

theorem dispatchAll_dispatched_default :
    ∀ (ps : List (ProviderType × DeviceProvider))
      (m : List (ProviderType × LightUpdateParams)), allDefault m →
      ∀ q u, (q, u) ∈ (dispatchAll m ps).2 → u = default := by
  intro ps
  induction ps with
  | nil => intro m _ q u hu; simp [dispatchAll] at hu
  | cons hd tl ih =>
    intro m h q u hu
    rw [show hd = (hd.1, hd.2) from rfl] at hu
    simp only [dispatchAll, List.mem_cons] at hu
    rcases hu with hu | hu
    · rw [Prod.mk.injEq] at hu
      rw [hu.2]
      exact (mapIndex_allDefault m hd.1 h).2
    · exact ih _ (mapIndex_allDefault m hd.1 h).1 q u hu

theorem tickFlatten_allDefault (b : Backend)
    (f : (DeviceInScene → DeviceInScene → Bool) →
      List DeviceInScene → List DeviceInScene)
    (st : RenderState) (h : allDefault st.lightUpdates) :
    allDefault (tickFlatten b f st).lightUpdates := by
  cases hd : b.scenesAreDirty with
  | true =>
    simp only [tickFlatten, hd, if_pos]
    exact vivifyAll_allDefault _ _ _ h
  | false =>
    simp only [tickFlatten, hd]
    simpa using h

theorem comparator_false_typeLe (ps : List (ProviderType × DeviceProvider))
    (x y : DeviceInScene) (h : sceneComparator ps y x = false) : typeLe x y := by
  unfold sceneComparator at h
  by_cases he : y.device.type = x.device.type
  · unfold typeLe
    exact Nat.le_of_eq he.symm
  · rw [if_neg he] at h
    unfold deviceCompare at h
    simp at h
    unfold typeLe
    exact h

theorem chain'_head_le (a : DeviceInScene) (t : List DeviceInScene)
    (h : List.Chain' typeLe (a :: t)) :
    ∀ k, k < t.length → typeLe a (t.getD k default) := by
  induction t generalizing a with
  | nil => intro k hk; simp at hk
  | cons b t ih =>
    intro k hk
    have hab : typeLe a b := (List.chain'_cons.mp h).1
    cases k with
    | zero => simpa using hab
    | succ k =>
      have hb := ih b (List.chain'_cons.mp h).2 k (by simpa using hk)
      simp only [List.getD_cons_succ]
      unfold typeLe at hab hb ⊢
      exact Nat.le_trans hab hb

theorem chain'_typeLe_getD (l : List DeviceInScene) (h : List.Chain' typeLe l) :
    ∀ i j, i < j → j < l.length → typeLe (l.getD i default) (l.getD j default) := by
  induction l with
  | nil => intro i j _ hj; simp at hj
  | cons a t ih =>
    intro i j hij hj
    cases j with
    | zero => omega
    | succ j =>
      cases i with
      | zero =>
        simp only [List.getD_cons_zero, List.getD_cons_succ]
        exact chain'_head_le a t h j (by simpa using hj)
      | succ i =>
        simp only [List.getD_cons_succ]
        exact ih h.tail i j (by omega) (by simpa using hj)

/-!
The claims.
-/

/-- Claim C1: in the scenario with two devices (provider 0 yielding one
bounding box, provider 1 yielding two) and one effect that sets every color
to `colorFix`, one tick yields a colors array of length 3 with every entry
equal to the fixed value — but the `LightUpdateParams` dispatched to both
providers are the value-initialized defaults (empty ranges) rather than
ranges of length 1 and 2: the partition scan of lines 99-127 fills a
by-value local copy (`auto update = lightUpdates[dp.first];`) that is then
discarded. The last two conjuncts evaluate the computed-and-discarded
partitions, which are exactly the ranges the claim describes. -/
theorem c1_tick_twoDevices_eval :
    (tick backendTwoDevices insertionSortBy 1 (initRenderState backendTwoDevices)).1.colors
      = [colorFix, colorFix, colorFix]
    ∧ (tick backendTwoDevices insertionSortBy 1 (initRenderState backendTwoDevices)).2.dispatched
      = [(0, (default : LightUpdateParams)), (1, (default : LightUpdateParams))]
    ∧ computePartition
        (tick backendTwoDevices insertionSortBy 1 (initRenderState backendTwoDevices)).1.devices 0
      = ⟨0, 1, 0, 1, 0, 1, true, true, true⟩
    ∧ computePartition
        (tick backendTwoDevices insertionSortBy 1 (initRenderState backendTwoDevices)).1.devices 1
      = ⟨1, 3, 1, 3, 1, 3, true, true, true⟩ := by decide

/-- Claim C2: the Save–Load round trip fails on the code. Saving a scene
with two resolvable devices and loading it back reproduces only the
first device (the load loop advances its array index twice per iteration,
so every odd-indexed persisted entry is never read), and the loaded
`location.y` equals the saved `rotation.yaw` (2 instead of the saved 1)
because `Backend::Save` writes both fields under the same key "t.y". -/
theorem c2_saveLoad_eval :
    ((Backend.Load backendLoadTarget (Backend.Save backendSaveLoad Store.empty)).scenes.map
      (fun s => s.devices.map (fun d => (d.device.uniqueId, d.transform))))
    = [[("1:a", ⟨⟨0, 2, 0⟩, ⟨1, 1, 1⟩, ⟨0, 2, 0⟩⟩)]] := by decide

/-- Claim C3: a skipped device entry does cost subsequent entries. In a
persisted scene whose entry 0 is unresolvable (unregistered provider 9)
and whose entry 1 resolves through registered provider 1, `Backend::Load`
loads no devices at all: the loop reads entry 0, skips it, and the double
increment (`setArrayIndex(j++)` plus the `for` header's `++j`) moves past
entry 1 without ever reading it. -/
theorem c3_load_skip_eval :
    ((Backend.Load backendSkip storeSkip).scenes.map
      (fun s => s.devices.map (fun d => d.device.uniqueId))) = [[]] := by decide

/-- Claim C6: `scenesAreDirty` is never cleared by any code in
backend.cpp, so after a dirty tick the next tick re-runs the whole dirty
branch (re-snapshot, re-sort, re-flatten, partition loop) instead of
reusing the computed state: on the two-device backend both the first and
the second tick take the dirty branch. -/
theorem c6_dirty_never_cleared_eval :
    (tick backendTwoDevices insertionSortBy 1 (initRenderState backendTwoDevices)).2.recomputed
      = true
    ∧ (tick backendTwoDevices insertionSortBy 1
        (tick backendTwoDevices insertionSortBy 1 (initRenderState backendTwoDevices)).1).2.recomputed
      = true := by decide

/-- Claim C9: `Start()` returns without any state change (and without
starting any provider) when the scheduler is already running, and `Stop()`
returns immediately (without stopping any provider) when it is not
running: both guards sit before any mutation. -/
theorem c9_startStop_idempotent (b : Backend) :
    (b.IsRunning = true → b.Start = (b, []))
    ∧ (b.IsRunning = false → b.Stop = (b, [])) := by
  constructor
  · intro h
    simp [Backend.Start, h]
  · intro h
    simp [Backend.Stop, h]

theorem c9_witness :
    (backendRunning.IsRunning = true ∧ backendRunning.Start = (backendRunning, []))
    ∧ (backendStopped.IsRunning = false ∧ backendStopped.Stop = (backendStopped, [])) :=
  ⟨⟨rfl, (c9_startStop_idempotent backendRunning).1 rfl⟩,
   ⟨rfl, (c9_startStop_idempotent backendStopped).2 rfl⟩⟩

/-- Claim C10: `Backend::Save` begins with `settings.clear()`, so the
result is independent of the prior store contents: a key that was present
before the call and that Save does not rewrite is gone afterwards. -/
theorem c10_save_clears (b : Backend) (s : Store) (k : KeyPath) (v : Value)
    (hpre : Store.get s k = some v)
    (hunwritten : Store.get (Backend.Save b Store.empty) k = none) :
    Store.get (Backend.Save b s) k = none := by
  have hindep : Backend.Save b s = Backend.Save b Store.empty := rfl
  rw [hindep]
  exact hunwritten

theorem c10_witness :
    Store.get [(["junk"], Value.str "x")] ["junk"] = some (Value.str "x")
    ∧ Store.get (Backend.Save backendBare Store.empty) ["junk"] = none
    ∧ Store.get (Backend.Save backendBare [(["junk"], Value.str "x")]) ["junk"] = none :=
  ⟨by decide, by decide,
   c10_save_clears backendBare [(["junk"], Value.str "x")] ["junk"] (Value.str "x")
     (by decide) (by decide)⟩

/-- Claim C5: after the flatten-and-resize step of a dirty tick, the
bounding-box, device and color arrays have the same length, and every
index inside the partition range computed for a provider type holds a
device of that type. -/
theorem c5_flatten_invariant (b : Backend)
    (f : (DeviceInScene → DeviceInScene → Bool) →
      List DeviceInScene → List DeviceInScene)
    (st : RenderState) (hd : b.scenesAreDirty = true) :
    ((tickFlatten b f st).boundingBoxes.length = (tickFlatten b f st).devices.length
      ∧ (tickFlatten b f st).colors.length = (tickFlatten b f st).boundingBoxes.length)
    ∧ ∀ (p : ProviderType) (i : Nat),
        (computePartition (tickFlatten b f st).devices p).devicesBegin ≤ i →
        i < (computePartition (tickFlatten b f st).devices p).devicesEnd →
        ((tickFlatten b f st).devices.getD i default).type = p := by
  refine ⟨⟨?_, ?_⟩, ?_⟩
  · simp only [tickFlatten, hd, if_true]
    exact flatten_length_eq _
  · simp only [tickFlatten, hd, if_true]
    exact listResize_length _ _
  · intro p i h1 h2
    exact computePartition_mem _ p i h1 h2

theorem c5_witness :
    backendTwoDevices.scenesAreDirty = true
    ∧ ((tickFlatten backendTwoDevices insertionSortBy
          (initRenderState backendTwoDevices)).boundingBoxes.length
        = (tickFlatten backendTwoDevices insertionSortBy
            (initRenderState backendTwoDevices)).devices.length)
    ∧ ((tickFlatten backendTwoDevices insertionSortBy
          (initRenderState backendTwoDevices)).devices.getD 1 default).type = 1 := by
  have happ := c5_flatten_invariant backendTwoDevices insertionSortBy
    (initRenderState backendTwoDevices) rfl
  exact ⟨rfl, happ.1.1, happ.2 1 1 (by decide) (by decide)⟩

/-- Claim C7: a registered provider with no devices in the flattened
snapshot gets an empty range, never an error: the partition scan computes
equal begin and end cursors for it, and the params actually dispatched to
it also carry equal cursors (on the code as written every provider is
dispatched the value-initialized entry, because the computed partitions
are discarded — see `vivifyAll`). -/
theorem c7_emptyProvider_emptyRange (b : Backend)
    (f : (DeviceInScene → DeviceInScene → Bool) →
      List DeviceInScene → List DeviceInScene)
    (dt : Rat) (st : RenderState) (p : ProviderType) (prov : DeviceProvider)
    (hreg : (p, prov) ∈ b.deviceProviders)
    (hnone : ∀ d ∈ (tick b f dt st).1.devices, d.type ≠ p)
    (hdef : allDefault st.lightUpdates) :
    ((computePartition (tick b f dt st).1.devices p).colorsBegin
        = (computePartition (tick b f dt st).1.devices p).colorsEnd
      ∧ (computePartition (tick b f dt st).1.devices p).devicesBegin
        = (computePartition (tick b f dt st).1.devices p).devicesEnd
      ∧ (computePartition (tick b f dt st).1.devices p).boundingBoxesBegin
        = (computePartition (tick b f dt st).1.devices p).boundingBoxesEnd)
    ∧ ∀ u, (p, u) ∈ (tick b f dt st).2.dispatched →
        u.colorsBegin = u.colorsEnd ∧ u.devicesBegin = u.devicesEnd
          ∧ u.boundingBoxesBegin = u.boundingBoxesEnd := by
  constructor
  · exact computePartition_empty _ p hnone
  · intro u hu
    have hmid : allDefault (tickFlatten b f st).lightUpdates :=
      tickFlatten_allDefault b f st hdef
    have hmem : (p, u) ∈ (dispatchAll (tickFlatten b f st).lightUpdates b.deviceProviders).2 := hu
    have hd : u = default :=
      dispatchAll_dispatched_default b.deviceProviders _ hmid p u hmem
    rw [hd]
    exact ⟨rfl, rfl, rfl⟩

theorem c7_witness :
    ((5 : ProviderType), provTrivial) ∈ backendThreeProviders.deviceProviders
    ∧ (∀ d ∈ (tick backendThreeProviders insertionSortBy 1
        (initRenderState backendThreeProviders)).1.devices, d.type ≠ 5)
    ∧ (computePartition (tick backendThreeProviders insertionSortBy 1
        (initRenderState backendThreeProviders)).1.devices 5).devicesBegin
      = (computePartition (tick backendThreeProviders insertionSortBy 1
          (initRenderState backendThreeProviders)).1.devices 5).devicesEnd
    ∧ ∀ u, ((5 : ProviderType), u) ∈ (tick backendThreeProviders insertionSortBy 1
        (initRenderState backendThreeProviders)).2.dispatched →
        u.colorsBegin = u.colorsEnd ∧ u.devicesBegin = u.devicesEnd
          ∧ u.boundingBoxesBegin = u.boundingBoxesEnd := by
  have hmem : ((5 : ProviderType), provTrivial) ∈ backendThreeProviders.deviceProviders :=
    List.Mem.tail _ (List.Mem.tail _ (List.Mem.head _))
  have happ := c7_emptyProvider_emptyRange backendThreeProviders insertionSortBy 1
    (initRenderState backendThreeProviders) 5 provTrivial hmem (by decide)
    (fun q u h => absurd h (List.not_mem_nil _))
  exact ⟨hmem, by decide, happ.1.2.1, happ.2⟩

/-- Claim C8: the snapshot rendered by a tick is exactly one scene — the
one selected by `activeSceneIndex` at copy time when the dirty branch
runs (its devices reordered by the sort), the previous snapshot otherwise;
an index that is in range selects that scene, and an out-of-range index
(including a negative one, which the `int`-to-`size_t` conversion turns
into a huge unsigned value) substitutes the empty scene and the tick
proceeds. -/
theorem c8_one_scene (b : Backend)
    (f : (DeviceInScene → DeviceInScene → Bool) →
      List DeviceInScene → List DeviceInScene)
    (st : RenderState)
    (hint : -(2 ^ 31 : Int) ≤ b.activeSceneIndex ∧ b.activeSceneIndex < 2 ^ 31)
    (hlen : b.scenes.length ≤ 2 ^ 63) :
    ((initRenderState b).renderScene = activeSceneOrEmpty b)
    ∧ (b.scenesAreDirty = true →
        (tickFlatten b f st).scene.devices
          = f (sceneComparator b.deviceProviders) (activeSceneOrEmpty b).devices
        ∧ (tickFlatten b f st).scene.effects = (activeSceneOrEmpty b).effects)
    ∧ (b.scenesAreDirty = false → (tickFlatten b f st).scene = st.renderScene)
    ∧ (0 ≤ b.activeSceneIndex → b.activeSceneIndex.toNat < b.scenes.length →
        activeSceneOrEmpty b = b.scenes.getD b.activeSceneIndex.toNat Scene.empty)
    ∧ ((b.activeSceneIndex < 0 ∨ b.scenes.length ≤ b.activeSceneIndex.toNat) →
        activeSceneOrEmpty b = Scene.empty) := by
  refine ⟨rfl, ?_, ?_, ?_, ?_⟩
  · intro h
    simp only [tickFlatten, h, if_true]
    exact ⟨trivial, trivial⟩
  · intro h
    simp only [tickFlatten, h]
    rfl
  · intro h0 hlt
    have hmod : b.activeSceneIndex % (2 ^ 64 : Int) = b.activeSceneIndex := by omega
    unfold activeSceneOrEmpty intToSizeT
    rw [hmod, if_pos hlt]
  · intro h
    have hcond : ¬ (intToSizeT b.activeSceneIndex < b.scenes.length) := by
      unfold intToSizeT
      rcases h with h | h
      · omega
      · omega
    unfold activeSceneOrEmpty
    rw [if_neg hcond]

theorem c8_witness :
    (-(2 ^ 31 : Int) ≤ backendNegIndex.activeSceneIndex
      ∧ backendNegIndex.activeSceneIndex < 2 ^ 31)
    ∧ backendNegIndex.scenes.length ≤ 2 ^ 63
    ∧ backendNegIndex.activeSceneIndex < 0
    ∧ activeSceneOrEmpty backendNegIndex = Scene.empty := by
  have happ := c8_one_scene backendNegIndex insertionSortBy
    (initRenderState backendNegIndex) (by decide) (by decide)
  exact ⟨by decide, by decide, by decide, happ.2.2.2.2 (Or.inl (by decide))⟩

/-- Claim C4, counterexample to stability: `std::sort` guarantees only a
sorted permutation. For the two equal-ordered entries `disS1, disS2` (the
registered provider's comparator reports every same-type pair as
equal-ordered) the reversed output `[disS2, disS1]` satisfies the whole
`std::sort` postcondition while breaking their relative order, so the
per-tick sort is not stable. -/
theorem c4_sort_not_stable :
    SortSpec (sceneComparator psOne) [disS1, disS2] [disS2, disS1]
    ∧ sceneComparator psOne disS1 disS2 = false
    ∧ sceneComparator psOne disS2 disS1 = false
    ∧ [disS1, disS2].map (fun d => d.device.uniqueId) = ["s1", "s2"]
    ∧ [disS2, disS1].map (fun d => d.device.uniqueId) = ["s2", "s1"] := by
  refine ⟨⟨List.Perm.swap disS2 disS1 [], ?_⟩, by decide, by decide, by decide, by decide⟩
  rw [List.chain'_pair]
  decide

/-- Claim C4 (amended): every output satisfying the `std::sort`
postcondition for the tick's comparator groups the devices of each
provider type into one contiguous block — whenever positions
`i < k < j` carry equal provider types at `i` and `j`, position `k`
carries that same type. (Stability is not guaranteed; see the
counterexample.) -/
theorem c4_sorted_contiguous (ps : List (ProviderType × DeviceProvider))
    (input out : List DeviceInScene)
    (hs : SortSpec (sceneComparator ps) input out)
    (i k j : Nat) (hik : i < k) (hkj : k < j) (hj : j < out.length)
    (heq : (out.getD i default).device.type = (out.getD j default).device.type) :
    (out.getD k default).device.type = (out.getD i default).device.type := by
  have hchain : List.Chain' typeLe out :=
    List.Chain'.imp (fun a b hab => comparator_false_typeLe ps a b hab) hs.2
  have h1 := chain'_typeLe_getD out hchain i k hik (by omega)
  have h2 := chain'_typeLe_getD out hchain k j hkj hj
  unfold typeLe at h1 h2
  have h2' : (out.getD k default).device.type ≤ (out.getD i default).device.type := by
    rw [heq]
    exact h2
  exact Nat.le_antisymm h2' h1

theorem c4_witness :
    SortSpec (sceneComparator psOne) [disS1, disS2, disS3] [disS1, disS2, disS3]
    ∧ (0 : Nat) < 1 ∧ (1 : Nat) < 2
    ∧ 2 < ([disS1, disS2, disS3] : List DeviceInScene).length
    ∧ ([disS1, disS2, disS3].getD 0 default).device.type
        = ([disS1, disS2, disS3].getD 2 default).device.type
    ∧ ([disS1, disS2, disS3].getD 1 default).device.type
        = ([disS1, disS2, disS3].getD 0 default).device.type := by
  have hs : SortSpec (sceneComparator psOne) [disS1, disS2, disS3] [disS1, disS2, disS3] := by
    refine ⟨List.Perm.refl _, ?_⟩
    rw [List.chain'_cons, List.chain'_pair]
    exact ⟨by decide, by decide⟩
  exact ⟨hs, by decide, by decide, by decide, by decide,
    c4_sorted_contiguous psOne _ _ hs 0 1 2 (by decide) (by decide) (by decide) (by decide)⟩
